import Mathlib

/-!
# DisplayInfo of the screen-sharing agent

A shallow embedding of
`streaming/screen-sharing-agent/app/src/main/cpp/accessors/display_info.cc`:
the two constructors of `DisplayInfo` and `DisplayInfo::ToDebugString`.

`int32_t` values are integers (`Int`); the predicate `isInt32` marks the
values a field can hold.  No operation of the file does arithmetic on
them, the only reinterpretation is the one `%x` makes of its argument
(`int` read as `unsigned int`), which is `toUnsigned`.
-/

namespace screensharing

/-! ## Machine integers -/

/-- Smallest `int32_t`. -/
def INT32_MIN : Int := -2147483648

/-- Largest `int32_t`. -/
def INT32_MAX : Int := 2147483647

/-- The values an `int32_t` can hold. -/
def isInt32 (v : Int) : Prop := INT32_MIN ≤ v ∧ v ≤ INT32_MAX

instance (v : Int) : Decidable (isInt32 v) := by
  unfold isInt32; exact inferInstance

/-- An `int` read as `unsigned int` (32 bits, two's complement). -/
def toUnsigned (v : Int) : Nat := (v % 4294967296).toNat

/-! ## Data model -/

/-- Modelled from the spec: the `Size` pair of `logical_size` (its declaration
is in a header outside `display_info.cc`); the source initialises it with
`{ logical_width, logical_height }` and reads `.width` and `.height`. -/
structure Size where
  width : Int
  height : Int
deriving DecidableEq

/-- Modelled from the spec: the record `DisplayInfo` (declared in
`display_info.h`, outside `display_info.cc`), with the six members the
constructors initialise, in the order of the initialiser lists. -/
structure DisplayInfo where
  logical_size : Size
  logical_density_dpi : Int
  rotation : Int
  layer_stack : Int
  flags : Int
  state : Int
deriving DecidableEq

/-- Every member of the record holds an `int32_t` value. -/
def DisplayInfo.isWellTyped (d : DisplayInfo) : Prop :=
  isInt32 d.logical_size.width ∧ isInt32 d.logical_size.height ∧
  isInt32 d.logical_density_dpi ∧ isInt32 d.rotation ∧ isInt32 d.layer_stack ∧
  isInt32 d.flags ∧ isInt32 d.state

instance (d : DisplayInfo) : Decidable d.isWellTyped := by
  unfold DisplayInfo.isWellTyped; exact inferInstance

/-! ## Formatting -/

/-- The `%d` conversion of `printf`: an optional minus sign and the decimal
digits of the magnitude, at least one digit, no padding. -/
def formatDecimal (v : Int) : List Char :=
  if v < 0 then '-' :: Nat.toDigits 10 v.natAbs else Nat.toDigits 10 v.natAbs

/-- The `%x` conversion of `printf`: the argument read as `unsigned int`,
written with the digits `0123456789abcdef`, at least one digit, no padding. -/
def formatHex (v : Int) : List Char :=
  Nat.toDigits 16 (toUnsigned v)

/-- The directive loop of `printf` over the format characters: `%d` and `%x`
consume the next argument, `%%` writes a percent sign, every other character
is copied. -/
def formatArgs : List Char → List Int → List Char
  | [], _ => []
  | [c], _ => [c]
  | c :: k :: rest, args =>
    if c = '%' then
      if k = '%' then '%' :: formatArgs rest args
      else
        match args with
        | v :: more =>
          if k = 'd' then formatDecimal v ++ formatArgs rest more
          else if k = 'x' then formatHex v ++ formatArgs rest more
          else c :: formatArgs (k :: rest) args
        | [] => c :: formatArgs (k :: rest) args
    else c :: formatArgs (k :: rest) args

/-- Modelled from the spec: `StringPrintf` of `string_printf.h` (not part of
`display_info.cc`), the `printf` formatter returning a string.  The spec asks
for decimal integers and for unpadded lowercase hexadecimal digits, which are
the `%d` and `%x` conversions of the format string in the source. -/
def StringPrintf (format : String) (args : List Int) : String :=
  String.mk (formatArgs format.data args)

/-! ## The operations of `display_info.cc` -/

/-- The constructor `DisplayInfo::DisplayInfo()`: `logical_size { 0, 0 }`,
`logical_density_dpi(0)` and the value-initialised `rotation()`,
`layer_stack()`, `flags()`, `state()`. -/
def DisplayInfo.DisplayInfo0 : DisplayInfo :=
  { logical_size := { width := 0, height := 0 }
    logical_density_dpi := 0
    rotation := 0
    layer_stack := 0
    flags := 0
    state := 0 }

/-- The constructor `DisplayInfo::DisplayInfo(int32_t, ..., int32_t)` with its
seven parameters in the order of the source. -/
def DisplayInfo.DisplayInfo7 (logical_width logical_height logical_density_dpi rotation
    layer_stack flags state : Int) : DisplayInfo :=
  { logical_size := { width := logical_width, height := logical_height }
    logical_density_dpi := logical_density_dpi
    rotation := rotation
    layer_stack := layer_stack
    flags := flags
    state := state }

/-- The method `DisplayInfo::ToDebugString`: the format string and the order of
the arguments are those of the source. -/
def DisplayInfo.ToDebugString (d : DisplayInfo) : String :=
  StringPrintf
    "logical_size:%dx%d display_rotation:%d dpi:%d layer_stack:%d flags:0x%x state:%d"
    [d.logical_size.width, d.logical_size.height, d.rotation, d.logical_density_dpi,
      d.layer_stack, d.flags, d.state]

/-! ## Reading numerals back -/

/-- The sixteen lowercase hexadecimal digit characters, in order of value. -/
def hexDigits : List Char := "0123456789abcdef".data

/-- The ten decimal digit characters, in order of value. -/
def decDigits : List Char := "0123456789".data

/-- The value of a lowercase hexadecimal digit: its position in `hexDigits`. -/
def hexDigitValue (c : Char) : Option Nat :=
  if c ∈ hexDigits then some (hexDigits.indexOf c) else none

/-- Horner evaluation of a run of lowercase hexadecimal digits, most
significant digit first, starting from `acc`; `none` at the first character
that is not such a digit. -/
def readHexFrom : Nat → List Char → Option Nat
  | acc, [] => some acc
  | acc, c :: cs =>
    match hexDigitValue c with
    | some v => readHexFrom (16 * acc + v) cs
    | none => none

/-- The number a non-empty lowercase base-16 numeral denotes. -/
def readHex (s : List Char) : Option Nat :=
  match s with
  | [] => none
  | c :: cs => readHexFrom 0 (c :: cs)

/-! ## The form of the debug string and the calls on explicit state -/

/-- The form
`logical_size:<W>x<H> display_rotation:<R> dpi:<D> layer_stack:<L> flags:0x<F> state:<S>`
of the debug string, with its seven slots filled by the given texts. -/
def debugForm (W H R D L F S : String) : String :=
  "logical_size:" ++ W ++ "x" ++ H ++ " display_rotation:" ++ R ++ " dpi:" ++ D
    ++ " layer_stack:" ++ L ++ " flags:0x" ++ F ++ " state:" ++ S

/-- A text without a sign character. -/
def noSign (s : List Char) : Prop := '-' ∉ s ∧ '+' ∉ s

/-- The line feed character. -/
def newline : Char := Char.ofNat 10

/-- The carriage return character. -/
def carriageReturn : Char := Char.ofNat 13

/-- A sample reading: 1080 by 2340 at 440 dpi, rotation 1, layer stack 0,
flags 255, state 2. -/
def sampleDisplay : DisplayInfo := DisplayInfo.DisplayInfo7 1080 2340 440 1 0 255 2

/-- The directive loop of `printf` with its failure cases made explicit: there
is no result when a conversion finds no argument left, or when a `%` is
followed by anything but `d`, `x` or `%`. -/
def formatArgsChecked : List Char → List Int → Option (List Char)
  | [], _ => some []
  | [c], _ => if c = '%' then none else some [c]
  | c :: k :: rest, args =>
    if c = '%' then
      if k = '%' then (formatArgsChecked rest args).map fun out => '%' :: out
      else
        match args with
        | v :: more =>
          if k = 'd' then (formatArgsChecked rest more).map fun out => formatDecimal v ++ out
          else if k = 'x' then (formatArgsChecked rest more).map fun out => formatHex v ++ out
          else none
        | [] => none
    else (formatArgsChecked (k :: rest) args).map fun out => c :: out

/-- A reading at the ends of the `int32_t` range, with a rotation outside 0..3. -/
def extremeDisplay : DisplayInfo :=
  DisplayInfo.DisplayInfo7 INT32_MIN INT32_MAX (-1) 7 INT32_MAX (-1) INT32_MIN

/-! ## Digits written by the conversions -/

/-- The accumulator of the digit loop is only ever extended at the front. -/
theorem toDigitsCore_acc (b : Nat) : ∀ (fuel n : Nat) (ds : List Char),
    Nat.toDigitsCore b fuel n ds = Nat.toDigitsCore b fuel n [] ++ ds := by
  intro fuel
  induction fuel with
  | zero => intro n ds; simp [Nat.toDigitsCore]
  | succ fuel ih =>
    intro n ds
    simp only [Nat.toDigitsCore]
    split
    · simp
    · rw [ih (n / b) (Nat.digitChar (n % b) :: ds), ih (n / b) [Nat.digitChar (n % b)]]
      simp

/-- With a base of at least two, any fuel above the number gives the same digits. -/
theorem toDigitsCore_fuel (b : Nat) (hb : 2 ≤ b) : ∀ (f g n : Nat) (ds : List Char),
    n < f → n < g → Nat.toDigitsCore b f n ds = Nat.toDigitsCore b g n ds := by
  intro f
  induction f with
  | zero => intro g n ds h; omega
  | succ f ih =>
    intro g n ds hf hg
    cases g with
    | zero => omega
    | succ g =>
      simp only [Nat.toDigitsCore]
      split
      · rfl
      · rename_i hne
        have hpos : 0 < n := Nat.pos_of_ne_zero (fun h0 => hne (by simp [h0]))
        have hlt : n / b < n := Nat.div_lt_self hpos (by omega)
        exact ih g (n / b) _ (by omega) (by omega)

/-- A number below the base is written as one digit. -/
theorem toDigits_small (b n : Nat) (h : n < b) :
    Nat.toDigits b n = [Nat.digitChar n] := by
  simp [Nat.toDigits, Nat.toDigitsCore, Nat.div_eq_of_lt h, Nat.mod_eq_of_lt h]

/-- A number that reaches the base is written as the digits of its quotient
followed by the digit of its remainder. -/
theorem toDigits_large (b n : Nat) (hb : 2 ≤ b) (h : b ≤ n) :
    Nat.toDigits b n = Nat.toDigits b (n / b) ++ [Nat.digitChar (n % b)] := by
  have hq : n / b ≠ 0 := by
    have : 0 < n / b := Nat.div_pos h (by omega)
    omega
  have hlt : n / b < n := Nat.div_lt_self (by omega) (by omega)
  have unroll : Nat.toDigits b n
      = Nat.toDigitsCore b n (n / b) [Nat.digitChar (n % b)] := by
    simp only [Nat.toDigits, Nat.toDigitsCore, if_neg hq]
  rw [unroll, toDigitsCore_acc b n (n / b) [Nat.digitChar (n % b)],
    toDigitsCore_fuel b hb n (n / b + 1) (n / b) [] hlt (by omega)]
  rfl

/-- Only the number zero has the digit `0`. -/
theorem digitChar_eq_zero (n : Nat) (h : Nat.digitChar n = '0') : n = 0 := by
  rcases Nat.lt_or_ge n 16 with hlt | hge
  · interval_cases n <;> first | rfl | exact absurd h (by decide)
  · have star : Nat.digitChar n = '*' := by
      unfold Nat.digitChar
      repeat rw [if_neg (by omega)]
    rw [star] at h
    exact absurd h (by decide)

/-- The digits below sixteen are the lowercase hexadecimal digits, each with
its own value. -/
theorem digitChar_hex (m : Nat) (h : m < 16) :
    Nat.digitChar m ∈ hexDigits ∧ hexDigitValue (Nat.digitChar m) = some m := by
  interval_cases m <;> exact ⟨by decide, by decide⟩

/-- The digits below ten are the decimal digits. -/
theorem digitChar_dec (m : Nat) (h : m < 10) : Nat.digitChar m ∈ decDigits := by
  interval_cases m <;> decide

/-- Every character of a numeral is the digit of a value below the base. -/
theorem toDigits_mem (b : Nat) (hb : 2 ≤ b) (n : Nat) :
    ∀ c ∈ Nat.toDigits b n, ∃ m, m < b ∧ c = Nat.digitChar m := by
  induction n using Nat.strong_induction_on with
  | _ n ih =>
    intro c hc
    rcases Nat.lt_or_ge n b with hlt | hge
    · rw [toDigits_small b n hlt, List.mem_singleton] at hc
      exact ⟨n, hlt, hc⟩
    · rw [toDigits_large b n hb hge, List.mem_append, List.mem_singleton] at hc
      rcases hc with hc | hc
      · exact ih (n / b) (Nat.div_lt_self (by omega) (by omega)) c hc
      · exact ⟨n % b, Nat.mod_lt n (by omega), hc⟩

/-- A numeral has at least one digit. -/
theorem toDigits_ne_nil (b : Nat) (hb : 2 ≤ b) (n : Nat) : Nat.toDigits b n ≠ [] := by
  rcases Nat.lt_or_ge n b with hlt | hge
  · rw [toDigits_small b n hlt]; simp
  · rw [toDigits_large b n hb hge]; simp

/-- A numeral starts with the digit `0` only when the number is zero. -/
theorem toDigits_head_zero (b : Nat) (hb : 2 ≤ b) (n : Nat) :
    (Nat.toDigits b n).head? = some '0' → n = 0 := by
  induction n using Nat.strong_induction_on with
  | _ n ih =>
    intro hz
    rcases Nat.lt_or_ge n b with hlt | hge
    · rw [toDigits_small b n hlt] at hz
      exact digitChar_eq_zero n (by simpa using hz)
    · rw [toDigits_large b n hb hge] at hz
      have hne := toDigits_ne_nil b hb (n / b)
      have hhead : (Nat.toDigits b (n / b)).head? = some '0' := by
        cases hds : Nat.toDigits b (n / b) with
        | nil => exact absurd hds hne
        | cons x xs => rw [hds] at hz; simpa using hz
      have hq := ih (n / b) (Nat.div_lt_self (by omega) (by omega)) hhead
      have : 0 < n / b := Nat.div_pos hge (by omega)
      omega

/-- The numeral of zero is the single digit `0`. -/
theorem toDigits_zero (b : Nat) (hb : 2 ≤ b) : Nat.toDigits b 0 = ['0'] := by
  rw [toDigits_small b 0 (by omega)]; rfl

/-- Reading a run that ends in one more character. -/
theorem readHexFrom_snoc (c : Char) : ∀ (xs : List Char) (acc : Nat),
    readHexFrom acc (xs ++ [c])
      = (readHexFrom acc xs).bind fun a => (hexDigitValue c).map fun v => 16 * a + v := by
  intro xs
  induction xs with
  | nil =>
    intro acc
    cases hv : hexDigitValue c <;> simp [readHexFrom, hv]
  | cons x xs ih =>
    intro acc
    cases hv : hexDigitValue x with
    | none => simp [readHexFrom, hv]
    | some v => simp [readHexFrom, hv, ih]

/-- Reading a base-16 numeral back gives the number it was written from. -/
theorem readHexFrom_toDigits (n : Nat) : readHexFrom 0 (Nat.toDigits 16 n) = some n := by
  induction n using Nat.strong_induction_on with
  | _ n ih =>
    rcases Nat.lt_or_ge n 16 with hlt | hge
    · rw [toDigits_small 16 n hlt]
      simp [readHexFrom, (digitChar_hex n hlt).2]
    · rw [toDigits_large 16 n (by decide) hge, readHexFrom_snoc,
        ih (n / 16) (Nat.div_lt_self (by omega) (by omega)),
        (digitChar_hex (n % 16) (Nat.mod_lt n (by decide))).2]
      simp only [Option.some_bind, Option.map_some']
      congr 1
      omega

/-- The function `readHex` inverts the base-16 rendering. -/
theorem readHex_toDigits (n : Nat) : readHex (Nat.toDigits 16 n) = some n := by
  have h := readHexFrom_toDigits n
  cases hds : Nat.toDigits 16 n with
  | nil => exact absurd hds (toDigits_ne_nil 16 (by decide) n)
  | cons x xs => rw [hds] at h; simpa [readHex] using h

/-! ## The layout of the debug string -/

/-- The characters of the debug string: the literal pieces of the format
string with the seven conversions between them. -/
theorem ToDebugString_data (d : DisplayInfo) :
    d.ToDebugString.data
      = "logical_size:".data ++ formatDecimal d.logical_size.width
        ++ "x".data ++ formatDecimal d.logical_size.height
        ++ " display_rotation:".data ++ formatDecimal d.rotation
        ++ " dpi:".data ++ formatDecimal d.logical_density_dpi
        ++ " layer_stack:".data ++ formatDecimal d.layer_stack
        ++ " flags:0x".data ++ formatHex d.flags
        ++ " state:".data ++ formatDecimal d.state := by
  simp [DisplayInfo.ToDebugString, StringPrintf, formatArgs]

/-- The `%d` conversion writes what `toString` writes for an integer. -/
theorem formatDecimal_toString (v : Int) : String.mk (formatDecimal v) = toString v := by
  cases v with
  | ofNat m =>
    have h : ¬ ((Int.ofNat m) < 0) := by simp
    simp only [formatDecimal, if_neg h]
    rfl
  | negSucc m =>
    have h : (Int.negSucc m) < 0 := Int.negSucc_lt_zero m
    simp only [formatDecimal, if_pos h]
    rfl

/-- The debug string in the form of the spec, the slots filled by the
conversions of the members. -/
theorem ToDebugString_form (d : DisplayInfo) :
    d.ToDebugString
      = debugForm (String.mk (formatDecimal d.logical_size.width))
          (String.mk (formatDecimal d.logical_size.height))
          (String.mk (formatDecimal d.rotation))
          (String.mk (formatDecimal d.logical_density_dpi))
          (String.mk (formatDecimal d.layer_stack))
          (String.mk (formatHex d.flags))
          (String.mk (formatDecimal d.state)) := by
  apply String.ext
  rw [ToDebugString_data]
  simp only [debugForm, String.data_append]

/-- A non-negative `int32_t` read as unsigned is the same number. -/
theorem toUnsigned_of_nonneg (v : Int) (h0 : 0 ≤ v) (hmax : v ≤ 2147483647) :
    toUnsigned v = v.toNat := by
  unfold toUnsigned
  rw [Int.emod_eq_of_lt h0 (by omega)]

/-- The `%x` conversion writes lowercase hexadecimal digits only. -/
theorem formatHex_mem (v : Int) : ∀ c ∈ formatHex v, c ∈ hexDigits := by
  intro c hc
  obtain ⟨m, hm, rfl⟩ := toDigits_mem 16 (by decide) (toUnsigned v) c hc
  exact (digitChar_hex m hm).1

/-- The `%d` conversion writes a minus sign or decimal digits. -/
theorem formatDecimal_mem (v : Int) : ∀ c ∈ formatDecimal v, c = '-' ∨ c ∈ decDigits := by
  intro c hc
  unfold formatDecimal at hc
  split at hc
  · rcases List.mem_cons.mp hc with hc | hc
    · exact Or.inl hc
    · obtain ⟨m, hm, rfl⟩ := toDigits_mem 10 (by decide) v.natAbs c hc
      exact Or.inr (digitChar_dec m hm)
  · obtain ⟨m, hm, rfl⟩ := toDigits_mem 10 (by decide) v.natAbs c hc
    exact Or.inr (digitChar_dec m hm)

/-- The `%d` conversion of a non-negative number writes decimal digits only. -/
theorem formatDecimal_nonneg (v : Int) (h0 : 0 ≤ v) : ∀ c ∈ formatDecimal v, c ∈ decDigits := by
  intro c hc
  have hneg : ¬ (v < 0) := by omega
  simp only [formatDecimal, if_neg hneg] at hc
  obtain ⟨m, hm, rfl⟩ := toDigits_mem 10 (by decide) v.natAbs c hc
  exact digitChar_dec m hm

/-- A run of decimal digits has no sign character. -/
theorem noSign_of_decDigits (s : List Char) (h : ∀ c ∈ s, c ∈ decDigits) : noSign s := by
  constructor
  · intro hm; exact absurd (h _ hm) (by decide)
  · intro hm; exact absurd (h _ hm) (by decide)

/-! ## The claims -/

/-- C1: the debug string is the concatenation of the literal pieces
`logical_size:`, `x`, ` display_rotation:`, ` dpi:`, ` layer_stack:`,
` flags:0x`, ` state:` with the signed decimal numerals of width, height,
rotation, density, layer stack and state and the lowercase hexadecimal numeral
of the flags (read as a 32-bit unsigned value) in between: the rotation fills
the `display_rotation` slot and the density the `dpi` slot. -/
theorem C1_ToDebugString_layout (d : DisplayInfo) :
    d.ToDebugString
      = "logical_size:" ++ toString d.logical_size.width
        ++ "x" ++ toString d.logical_size.height
        ++ " display_rotation:" ++ toString d.rotation
        ++ " dpi:" ++ toString d.logical_density_dpi
        ++ " layer_stack:" ++ toString d.layer_stack
        ++ " flags:0x" ++ String.mk (Nat.toDigits 16 (toUnsigned d.flags))
        ++ " state:" ++ toString d.state := by
  apply String.ext
  rw [ToDebugString_data]
  simp only [← formatDecimal_toString, String.data_append, formatHex]

/-- C2: the instance built by the seven-argument constructor has every member
equal to the argument of the same name: width, height, density, rotation,
layer stack, flags and state are stored as given, unchecked and unswapped. -/
theorem C2_constructor_stores_arguments (w h dpi rot ls fl st : Int) :
    (DisplayInfo.DisplayInfo7 w h dpi rot ls fl st).logical_size.width = w
    ∧ (DisplayInfo.DisplayInfo7 w h dpi rot ls fl st).logical_size.height = h
    ∧ (DisplayInfo.DisplayInfo7 w h dpi rot ls fl st).logical_density_dpi = dpi
    ∧ (DisplayInfo.DisplayInfo7 w h dpi rot ls fl st).rotation = rot
    ∧ (DisplayInfo.DisplayInfo7 w h dpi rot ls fl st).layer_stack = ls
    ∧ (DisplayInfo.DisplayInfo7 w h dpi rot ls fl st).flags = fl
    ∧ (DisplayInfo.DisplayInfo7 w h dpi rot ls fl st).state = st :=
  ⟨rfl, rfl, rfl, rfl, rfl, rfl, rfl⟩

/-- C3: the default-constructed instance has the logical size (0, 0) and the
density, rotation, layer stack, flags and state all zero. -/
theorem C3_default_constructor_zero :
    DisplayInfo.DisplayInfo0.logical_size = { width := 0, height := 0 }
    ∧ DisplayInfo.DisplayInfo0.logical_density_dpi = 0
    ∧ DisplayInfo.DisplayInfo0.rotation = 0
    ∧ DisplayInfo.DisplayInfo0.layer_stack = 0
    ∧ DisplayInfo.DisplayInfo0.flags = 0
    ∧ DisplayInfo.DisplayInfo0.state = 0 :=
  ⟨rfl, rfl, rfl, rfl, rfl, rfl⟩

/-- C4: the instance constructed from width 1080, height 2340, density 440,
rotation 1, layer stack 0, flags 4 and state 2 renders as
`logical_size:1080x2340 display_rotation:1 dpi:440 layer_stack:0 flags:0x4 state:2`. -/
theorem C4_scenario_1080x2340 :
    (DisplayInfo.DisplayInfo7 1080 2340 440 1 0 4 2).ToDebugString
      = "logical_size:1080x2340 display_rotation:1 dpi:440 layer_stack:0 flags:0x4 state:2" := by
  decide

/-- C5: the default-constructed instance renders as
`logical_size:0x0 display_rotation:0 dpi:0 layer_stack:0 flags:0x0 state:0`. -/
theorem C5_scenario_default :
    DisplayInfo.DisplayInfo0.ToDebugString
      = "logical_size:0x0 display_rotation:0 dpi:0 layer_stack:0 flags:0x0 state:0" := by
  decide

/-- C6: when the flags are 255, whatever the other members, the text between
the layer stack numeral and ` state:` is exactly ` flags:0xff`. -/
theorem C6_flags_255 (d : DisplayInfo) (h : d.flags = 255) :
    d.ToDebugString
      = "logical_size:" ++ toString d.logical_size.width
        ++ "x" ++ toString d.logical_size.height
        ++ " display_rotation:" ++ toString d.rotation
        ++ " dpi:" ++ toString d.logical_density_dpi
        ++ " layer_stack:" ++ toString d.layer_stack
        ++ " flags:0xff"
        ++ " state:" ++ toString d.state := by
  apply String.ext
  rw [ToDebugString_data]
  have hff : formatHex d.flags = ['f', 'f'] := by rw [h]; decide
  simp only [← formatDecimal_toString, String.data_append, hff, List.append_assoc]
  rfl

/-- Witness of C6: an instance with flags 255 and negative members elsewhere. -/
theorem C6_flags_255_witness :
    (DisplayInfo.DisplayInfo7 (-7) 2340 440 5 (-1) 255 2).flags = 255
    ∧ (DisplayInfo.DisplayInfo7 (-7) 2340 440 5 (-1) 255 2).ToDebugString
      = "logical_size:" ++ toString (-7 : Int) ++ "x" ++ toString (2340 : Int)
        ++ " display_rotation:" ++ toString (5 : Int) ++ " dpi:" ++ toString (440 : Int)
        ++ " layer_stack:" ++ toString (-1 : Int) ++ " flags:0xff"
        ++ " state:" ++ toString (2 : Int) :=
  ⟨rfl, C6_flags_255 (DisplayInfo.DisplayInfo7 (-7) 2340 440 5 (-1) 255 2) rfl⟩

/-- C7: for flags between 0 and 2^31 - 1 the digits written after `flags:0x`
are the canonical lowercase base-16 numeral of the flags: the debug string has
the digits in the flags slot, they are not empty, are all among `0`-`9` and
`a`-`f`, start with `0` only when they are exactly `0`, are exactly `0` iff the
flags are zero, and read back in base 16 they give the flags. -/
theorem C7_flags_canonical_hex (d : DisplayInfo) (h0 : 0 ≤ d.flags)
    (hmax : d.flags ≤ 2147483647) :
    d.ToDebugString
      = debugForm (toString d.logical_size.width) (toString d.logical_size.height)
          (toString d.rotation) (toString d.logical_density_dpi) (toString d.layer_stack)
          (String.mk (formatHex d.flags)) (toString d.state)
    ∧ formatHex d.flags ≠ []
    ∧ (∀ c ∈ formatHex d.flags, c ∈ hexDigits)
    ∧ ((formatHex d.flags).head? = some '0' → formatHex d.flags = ['0'])
    ∧ (formatHex d.flags = ['0'] ↔ d.flags = 0)
    ∧ (readHex (formatHex d.flags)).map Int.ofNat = some d.flags := by
  have hu : toUnsigned d.flags = d.flags.toNat := toUnsigned_of_nonneg d.flags h0 hmax
  have hcast : ((d.flags.toNat : Nat) : Int) = d.flags := Int.toNat_of_nonneg h0
  refine ⟨?_, ?_, formatHex_mem d.flags, ?_, ?_, ?_⟩
  · rw [ToDebugString_form]
    simp only [formatDecimal_toString]
  · exact toDigits_ne_nil 16 (by decide) _
  · intro hz
    have hzero := toDigits_head_zero 16 (by decide) (toUnsigned d.flags) hz
    unfold formatHex
    rw [hzero]
    exact toDigits_zero 16 (by decide)
  · constructor
    · intro heq
      have hzero := toDigits_head_zero 16 (by decide) (toUnsigned d.flags)
        (by unfold formatHex at heq; rw [heq]; rfl)
      rw [hu] at hzero
      omega
    · intro hf
      rw [hf]
      decide
  · unfold formatHex
    rw [readHex_toDigits, hu]
    simp only [Option.map_some']
    exact congrArg some hcast

/-- Witness of C7: the sample reading, whose flags 255 are written `ff`. -/
theorem C7_flags_canonical_hex_witness :
    (0 : Int) ≤ sampleDisplay.flags
    ∧ sampleDisplay.flags ≤ 2147483647
    ∧ sampleDisplay.ToDebugString
      = debugForm (toString sampleDisplay.logical_size.width)
          (toString sampleDisplay.logical_size.height)
          (toString sampleDisplay.rotation) (toString sampleDisplay.logical_density_dpi)
          (toString sampleDisplay.layer_stack)
          (String.mk (formatHex sampleDisplay.flags)) (toString sampleDisplay.state)
    ∧ formatHex sampleDisplay.flags ≠ []
    ∧ (∀ c ∈ formatHex sampleDisplay.flags, c ∈ hexDigits)
    ∧ ((formatHex sampleDisplay.flags).head? = some '0' → formatHex sampleDisplay.flags = ['0'])
    ∧ (formatHex sampleDisplay.flags = ['0'] ↔ sampleDisplay.flags = 0)
    ∧ (readHex (formatHex sampleDisplay.flags)).map Int.ofNat = some sampleDisplay.flags :=
  ⟨by decide, by decide, C7_flags_canonical_hex sampleDisplay (by decide) (by decide)⟩

/-- C8: when the seven members are all non-negative, the debug string has the
form of the spec with six decimal fields that contain no `-` and no `+`, and a
flags field whose digits after the one `0x` are all among `0`-`9` and `a`-`f`:
no `x` and no uppercase letter among them. -/
theorem C8_nonneg_no_sign_lower_hex (d : DisplayInfo)
    (hw : 0 ≤ d.logical_size.width) (hh : 0 ≤ d.logical_size.height)
    (hdpi : 0 ≤ d.logical_density_dpi) (hrot : 0 ≤ d.rotation)
    (hls : 0 ≤ d.layer_stack) (_hfl : 0 ≤ d.flags) (hst : 0 ≤ d.state) :
    d.ToDebugString
      = debugForm (String.mk (formatDecimal d.logical_size.width))
          (String.mk (formatDecimal d.logical_size.height))
          (String.mk (formatDecimal d.rotation))
          (String.mk (formatDecimal d.logical_density_dpi))
          (String.mk (formatDecimal d.layer_stack))
          (String.mk (formatHex d.flags))
          (String.mk (formatDecimal d.state))
    ∧ noSign (formatDecimal d.logical_size.width)
    ∧ noSign (formatDecimal d.logical_size.height)
    ∧ noSign (formatDecimal d.rotation)
    ∧ noSign (formatDecimal d.logical_density_dpi)
    ∧ noSign (formatDecimal d.layer_stack)
    ∧ noSign (formatDecimal d.state)
    ∧ (∀ c ∈ formatHex d.flags, c ∈ hexDigits)
    ∧ 'x' ∉ formatHex d.flags
    ∧ (∀ c ∈ formatHex d.flags, c.isUpper = false) := by
  refine ⟨ToDebugString_form d,
    noSign_of_decDigits _ (formatDecimal_nonneg _ hw),
    noSign_of_decDigits _ (formatDecimal_nonneg _ hh),
    noSign_of_decDigits _ (formatDecimal_nonneg _ hrot),
    noSign_of_decDigits _ (formatDecimal_nonneg _ hdpi),
    noSign_of_decDigits _ (formatDecimal_nonneg _ hls),
    noSign_of_decDigits _ (formatDecimal_nonneg _ hst),
    formatHex_mem d.flags, ?_, ?_⟩
  · intro hx
    exact absurd (formatHex_mem d.flags _ hx) (by decide)
  · intro c hc
    have lower : ∀ k ∈ hexDigits, k.isUpper = false := by decide
    exact lower c (formatHex_mem d.flags c hc)

/-- Witness of C8: the sample reading, all of whose members are non-negative. -/
theorem C8_nonneg_no_sign_lower_hex_witness :
    (0 : Int) ≤ sampleDisplay.logical_size.width
    ∧ (0 : Int) ≤ sampleDisplay.logical_size.height
    ∧ (0 : Int) ≤ sampleDisplay.logical_density_dpi
    ∧ (0 : Int) ≤ sampleDisplay.rotation
    ∧ (0 : Int) ≤ sampleDisplay.layer_stack
    ∧ (0 : Int) ≤ sampleDisplay.flags
    ∧ (0 : Int) ≤ sampleDisplay.state
    ∧ sampleDisplay.ToDebugString
      = debugForm (String.mk (formatDecimal sampleDisplay.logical_size.width))
          (String.mk (formatDecimal sampleDisplay.logical_size.height))
          (String.mk (formatDecimal sampleDisplay.rotation))
          (String.mk (formatDecimal sampleDisplay.logical_density_dpi))
          (String.mk (formatDecimal sampleDisplay.layer_stack))
          (String.mk (formatHex sampleDisplay.flags))
          (String.mk (formatDecimal sampleDisplay.state))
    ∧ noSign (formatDecimal sampleDisplay.logical_size.width)
    ∧ noSign (formatDecimal sampleDisplay.logical_size.height)
    ∧ noSign (formatDecimal sampleDisplay.rotation)
    ∧ noSign (formatDecimal sampleDisplay.logical_density_dpi)
    ∧ noSign (formatDecimal sampleDisplay.layer_stack)
    ∧ noSign (formatDecimal sampleDisplay.state)
    ∧ (∀ c ∈ formatHex sampleDisplay.flags, c ∈ hexDigits)
    ∧ 'x' ∉ formatHex sampleDisplay.flags
    ∧ (∀ c ∈ formatHex sampleDisplay.flags, c.isUpper = false) :=
  ⟨by decide, by decide, by decide, by decide, by decide, by decide, by decide,
    C8_nonneg_no_sign_lower_hex sampleDisplay (by decide) (by decide) (by decide)
      (by decide) (by decide) (by decide) (by decide)⟩

/-- C9: the debug string is a single line: none of its characters is a line
feed or a carriage return, whatever the values of the members. -/
theorem C9_single_line (d : DisplayInfo) :
    newline ∉ d.ToDebugString.data ∧ carriageReturn ∉ d.ToDebugString.data := by
  have text : ∀ c ∈ d.ToDebugString.data,
      c ∈ "logical_size:x display_rotation: dpi: layer_stack: flags:0x state:-".data
        ∨ c ∈ decDigits ∨ c ∈ hexDigits := by
    intro c hc
    rw [ToDebugString_data] at hc
    simp only [List.mem_append] at hc
    have lit : ∀ piece : List Char,
        (∀ k ∈ piece,
          k ∈ "logical_size:x display_rotation: dpi: layer_stack: flags:0x state:-".data) →
        c ∈ piece →
        c ∈ "logical_size:x display_rotation: dpi: layer_stack: flags:0x state:-".data
          ∨ c ∈ decDigits ∨ c ∈ hexDigits :=
      fun piece hp hm => Or.inl (hp c hm)
    have dec : ∀ v : Int, c ∈ formatDecimal v →
        c ∈ "logical_size:x display_rotation: dpi: layer_stack: flags:0x state:-".data
          ∨ c ∈ decDigits ∨ c ∈ hexDigits := by
      intro v hm
      rcases formatDecimal_mem v c hm with rfl | hdig
      · exact Or.inl (by decide)
      · exact Or.inr (Or.inl hdig)
    rcases hc with ((((((((((((h | h) | h) | h) | h) | h) | h) | h) | h) | h) | h) | h) | h) | h
    · exact lit _ (by decide) h
    · exact dec _ h
    · exact lit _ (by decide) h
    · exact dec _ h
    · exact lit _ (by decide) h
    · exact dec _ h
    · exact lit _ (by decide) h
    · exact dec _ h
    · exact lit _ (by decide) h
    · exact dec _ h
    · exact lit _ (by decide) h
    · exact Or.inr (Or.inr (formatHex_mem _ c h))
    · exact lit _ (by decide) h
    · exact dec _ h
  constructor
  · intro hm
    rcases text _ hm with h | h | h
    · exact absurd h (by decide)
    · exact absurd h (by decide)
    · exact absurd h (by decide)
  · intro hm
    rcases text _ hm with h | h | h
    · exact absurd h (by decide)
    · exact absurd h (by decide)
    · exact absurd h (by decide)

/-- C11: construction and rendering are total and have no error result: the
default constructor gives an instance, the seven-argument constructor gives an
instance holding seven `int32_t` values for every choice of `int32_t`
arguments (no value is rejected), and for every instance `ToDebugString` gives
a string, every conversion of its format string finding its argument. -/
theorem C11_total_no_error (w h dpi rot ls fl st : Int)
    (hw : isInt32 w) (hh : isInt32 h) (hdpi : isInt32 dpi) (hrot : isInt32 rot)
    (hls : isInt32 ls) (hfl : isInt32 fl) (hst : isInt32 st) (d : DisplayInfo) :
    (∃ r : DisplayInfo, DisplayInfo.DisplayInfo0 = r ∧ r.isWellTyped)
    ∧ (∃ r : DisplayInfo, DisplayInfo.DisplayInfo7 w h dpi rot ls fl st = r ∧ r.isWellTyped)
    ∧ (∃ out : String, d.ToDebugString = out
        ∧ formatArgsChecked
            "logical_size:%dx%d display_rotation:%d dpi:%d layer_stack:%d flags:0x%x state:%d".data
            [d.logical_size.width, d.logical_size.height, d.rotation, d.logical_density_dpi,
              d.layer_stack, d.flags, d.state]
          = some out.data) := by
  refine ⟨⟨_, rfl, ?_⟩, ⟨_, rfl, hw, hh, hdpi, hrot, hls, hfl, hst⟩, ⟨_, rfl, ?_⟩⟩
  · decide
  · rw [ToDebugString_data]
    simp [formatArgsChecked]

/-- Witness of C11: the arguments at the ends of the `int32_t` range, a
rotation of 7, and the instance built from them. -/
theorem C11_total_no_error_witness :
    isInt32 INT32_MIN ∧ isInt32 INT32_MAX ∧ isInt32 (-1) ∧ isInt32 7
    ∧ (∃ r : DisplayInfo, DisplayInfo.DisplayInfo0 = r ∧ r.isWellTyped)
    ∧ (∃ r : DisplayInfo,
        DisplayInfo.DisplayInfo7 INT32_MIN INT32_MAX (-1) 7 INT32_MAX (-1) INT32_MIN = r
        ∧ r.isWellTyped)
    ∧ (∃ out : String, extremeDisplay.ToDebugString = out
        ∧ formatArgsChecked
            "logical_size:%dx%d display_rotation:%d dpi:%d layer_stack:%d flags:0x%x state:%d".data
            [extremeDisplay.logical_size.width, extremeDisplay.logical_size.height,
              extremeDisplay.rotation, extremeDisplay.logical_density_dpi,
              extremeDisplay.layer_stack, extremeDisplay.flags, extremeDisplay.state]
          = some out.data) :=
  ⟨by decide, by decide, by decide, by decide,
    C11_total_no_error INT32_MIN INT32_MAX (-1) 7 INT32_MAX (-1) INT32_MIN
      (by decide) (by decide) (by decide) (by decide) (by decide) (by decide) (by decide)
      extremeDisplay⟩

/-- C15: the default constructor agrees with the seven-argument constructor at
zero: the two instances have every member equal, are the same record, and
render to the same debug string. -/
theorem C15_default_agrees_with_zero_arguments :
    DisplayInfo.DisplayInfo0.logical_size.width
      = (DisplayInfo.DisplayInfo7 0 0 0 0 0 0 0).logical_size.width
    ∧ DisplayInfo.DisplayInfo0.logical_size.height
      = (DisplayInfo.DisplayInfo7 0 0 0 0 0 0 0).logical_size.height
    ∧ DisplayInfo.DisplayInfo0.logical_density_dpi
      = (DisplayInfo.DisplayInfo7 0 0 0 0 0 0 0).logical_density_dpi
    ∧ DisplayInfo.DisplayInfo0.rotation = (DisplayInfo.DisplayInfo7 0 0 0 0 0 0 0).rotation
    ∧ DisplayInfo.DisplayInfo0.layer_stack = (DisplayInfo.DisplayInfo7 0 0 0 0 0 0 0).layer_stack
    ∧ DisplayInfo.DisplayInfo0.flags = (DisplayInfo.DisplayInfo7 0 0 0 0 0 0 0).flags
    ∧ DisplayInfo.DisplayInfo0.state = (DisplayInfo.DisplayInfo7 0 0 0 0 0 0 0).state
    ∧ DisplayInfo.DisplayInfo0 = DisplayInfo.DisplayInfo7 0 0 0 0 0 0 0
    ∧ DisplayInfo.DisplayInfo0.ToDebugString
      = (DisplayInfo.DisplayInfo7 0 0 0 0 0 0 0).ToDebugString :=
  ⟨rfl, rfl, rfl, rfl, rfl, rfl, rfl, rfl, rfl⟩

/-! ## Negative flags -/

/-- A negative `int32_t` read as unsigned is the number plus 2^32, in the upper
half of the unsigned range. -/
theorem toUnsigned_of_neg (v : Int) (hmin : -2147483648 ≤ v) (hneg : v < 0) :
    toUnsigned v = (v + 4294967296).toNat ∧ 2147483648 ≤ toUnsigned v
      ∧ toUnsigned v < 4294967296 := by
  unfold toUnsigned
  omega

/-- A number in the upper half of the 32-bit range is written with eight
base-16 digits. -/
theorem toDigits_eight (n : Nat) (hlo : 2147483648 ≤ n) (hhi : n < 4294967296) :
    Nat.toDigits 16 n
      = Nat.digitChar (n / 16 / 16 / 16 / 16 / 16 / 16 / 16)
        :: [Nat.digitChar (n / 16 / 16 / 16 / 16 / 16 / 16 % 16),
            Nat.digitChar (n / 16 / 16 / 16 / 16 / 16 % 16),
            Nat.digitChar (n / 16 / 16 / 16 / 16 % 16),
            Nat.digitChar (n / 16 / 16 / 16 % 16),
            Nat.digitChar (n / 16 / 16 % 16),
            Nat.digitChar (n / 16 % 16),
            Nat.digitChar (n % 16)] := by
  rw [toDigits_large 16 n (by decide) (by omega),
    toDigits_large 16 (n / 16) (by decide) (by omega),
    toDigits_large 16 (n / 16 / 16) (by decide) (by omega),
    toDigits_large 16 (n / 16 / 16 / 16) (by decide) (by omega),
    toDigits_large 16 (n / 16 / 16 / 16 / 16) (by decide) (by omega),
    toDigits_large 16 (n / 16 / 16 / 16 / 16 / 16) (by decide) (by omega),
    toDigits_large 16 (n / 16 / 16 / 16 / 16 / 16 / 16) (by decide) (by omega),
    toDigits_small 16 (n / 16 / 16 / 16 / 16 / 16 / 16 / 16) (by omega)]
  rfl

/-- The digits of the values 8 to 15. -/
theorem digitChar_high (m : Nat) (hlo : 8 ≤ m) (hhi : m < 16) :
    Nat.digitChar m ∈ "89abcdef".data := by
  interval_cases m <;> decide

/-- C14: negative flags are written as the lowercase base-16 numeral of the
flags plus 2^32 (their reading as a 32-bit unsigned value): the digits in the
flags slot are exactly eight, the first is one of `8`-`f`, all are among
`0`-`9` and `a`-`f` so none is a minus sign, they read back as the flags plus
2^32, and the flags -1 give `ffffffff`. -/
theorem C14_negative_flags (d : DisplayInfo) (hmin : -2147483648 ≤ d.flags)
    (hneg : d.flags < 0) :
    d.ToDebugString
      = debugForm (toString d.logical_size.width) (toString d.logical_size.height)
          (toString d.rotation) (toString d.logical_density_dpi) (toString d.layer_stack)
          (String.mk (Nat.toDigits 16 (d.flags + 4294967296).toNat)) (toString d.state)
    ∧ formatHex d.flags = Nat.toDigits 16 (d.flags + 4294967296).toNat
    ∧ (formatHex d.flags).length = 8
    ∧ (∃ c, (formatHex d.flags).head? = some c ∧ c ∈ "89abcdef".data)
    ∧ (∀ c ∈ formatHex d.flags, c ∈ hexDigits)
    ∧ '-' ∉ formatHex d.flags
    ∧ (readHex (formatHex d.flags)).map Int.ofNat = some (d.flags + 4294967296)
    ∧ (d.flags = -1 → formatHex d.flags = "ffffffff".data) := by
  obtain ⟨hu, hlo, hhi⟩ := toUnsigned_of_neg d.flags hmin hneg
  have hex : formatHex d.flags = Nat.toDigits 16 (d.flags + 4294967296).toNat := by
    unfold formatHex
    rw [hu]
  have eight := toDigits_eight (toUnsigned d.flags) hlo hhi
  refine ⟨?_, hex, ?_, ?_, formatHex_mem d.flags, ?_, ?_, ?_⟩
  · rw [ToDebugString_form, hex]
    simp only [formatDecimal_toString]
  · unfold formatHex
    rw [eight]
    rfl
  · refine ⟨Nat.digitChar (toUnsigned d.flags / 16 / 16 / 16 / 16 / 16 / 16 / 16), ?_,
      digitChar_high _ (by omega) (by omega)⟩
    unfold formatHex
    rw [eight]
    rfl
  · intro hm
    exact absurd (formatHex_mem d.flags _ hm) (by decide)
  · unfold formatHex
    rw [readHex_toDigits, hu]
    simp only [Option.map_some']
    exact congrArg some (Int.toNat_of_nonneg (by omega))
  · intro h1
    rw [h1]
    decide

/-- Witness of C14: the reading `extremeDisplay`, whose flags are -1. -/
theorem C14_negative_flags_witness :
    (-2147483648 : Int) ≤ extremeDisplay.flags
    ∧ extremeDisplay.flags < 0
    ∧ extremeDisplay.ToDebugString
      = debugForm (toString extremeDisplay.logical_size.width)
          (toString extremeDisplay.logical_size.height)
          (toString extremeDisplay.rotation) (toString extremeDisplay.logical_density_dpi)
          (toString extremeDisplay.layer_stack)
          (String.mk (Nat.toDigits 16 (extremeDisplay.flags + 4294967296).toNat))
          (toString extremeDisplay.state)
    ∧ formatHex extremeDisplay.flags
      = Nat.toDigits 16 (extremeDisplay.flags + 4294967296).toNat
    ∧ (formatHex extremeDisplay.flags).length = 8
    ∧ (∃ c, (formatHex extremeDisplay.flags).head? = some c ∧ c ∈ "89abcdef".data)
    ∧ (∀ c ∈ formatHex extremeDisplay.flags, c ∈ hexDigits)
    ∧ '-' ∉ formatHex extremeDisplay.flags
    ∧ (readHex (formatHex extremeDisplay.flags)).map Int.ofNat
      = some (extremeDisplay.flags + 4294967296)
    ∧ (extremeDisplay.flags = -1 → formatHex extremeDisplay.flags = "ffffffff".data) :=
  ⟨by decide, by decide, C14_negative_flags extremeDisplay (by decide) (by decide)⟩

/-! ## The debug string determines the members -/

/-- Digits of values below sixteen are distinct. -/
theorem digitChar_inj (m k : Nat) (hm : m < 16) (hk : k < 16)
    (h : Nat.digitChar m = Nat.digitChar k) : m = k := by
  have vm := (digitChar_hex m hm).2
  have vk := (digitChar_hex k hk).2
  rw [h, vk] at vm
  exact (Option.some.inj vm).symm

/-- Two numbers with the same numeral in a base from 2 to 16 are equal. -/
theorem toDigits_inj (b : Nat) (hb : 2 ≤ b) (hb16 : b ≤ 16) :
    ∀ n m : Nat, Nat.toDigits b n = Nat.toDigits b m → n = m := by
  intro n
  induction n using Nat.strong_induction_on with
  | _ n ih =>
    intro m h
    rcases Nat.lt_or_ge n b with hn | hn <;> rcases Nat.lt_or_ge m b with hm | hm
    · rw [toDigits_small b n hn, toDigits_small b m hm] at h
      exact digitChar_inj n m (by omega) (by omega) (List.cons.inj h).1
    · rw [toDigits_small b n hn, toDigits_large b m hb hm] at h
      have hlen := congrArg List.length h
      have hpos := List.length_pos.mpr (toDigits_ne_nil b hb (m / b))
      simp only [List.length_append, List.length_singleton] at hlen
      omega
    · rw [toDigits_large b n hb hn, toDigits_small b m hm] at h
      have hlen := congrArg List.length h
      have hpos := List.length_pos.mpr (toDigits_ne_nil b hb (n / b))
      simp only [List.length_append, List.length_singleton] at hlen
      omega
    · rw [toDigits_large b n hb hn, toDigits_large b m hb hm] at h
      obtain ⟨hq, hr⟩ := List.append_inj' h rfl
      have hquot := ih (n / b) (Nat.div_lt_self (by omega) (by omega)) (m / b) hq
      have hbn : n % b < b := Nat.mod_lt n (by omega)
      have hbm : m % b < b := Nat.mod_lt m (by omega)
      have hrem := digitChar_inj (n % b) (m % b) (by omega) (by omega) (List.cons.inj hr).1
      rw [← Nat.div_add_mod n b, ← Nat.div_add_mod m b, hquot, hrem]

/-- A decimal numeral of a natural number has no minus sign. -/
theorem minus_not_mem_toDigits (n : Nat) : '-' ∉ Nat.toDigits 10 n := by
  intro hm
  obtain ⟨k, hk, hc⟩ := toDigits_mem 10 (by decide) n _ hm
  have hdec := digitChar_dec k hk
  rw [← hc] at hdec
  exact absurd hdec (by decide)

/-- The `%d` conversion writes different numbers differently. -/
theorem formatDecimal_inj (v w : Int) (h : formatDecimal v = formatDecimal w) : v = w := by
  unfold formatDecimal at h
  by_cases hv : v < 0 <;> by_cases hw : w < 0
  · rw [if_pos hv, if_pos hw] at h
    have := toDigits_inj 10 (by decide) (by decide) _ _ (List.cons.inj h).2
    omega
  · rw [if_pos hv, if_neg hw] at h
    exact absurd (h ▸ List.mem_cons_self _ _) (minus_not_mem_toDigits w.natAbs)
  · rw [if_neg hv, if_pos hw] at h
    exact absurd (h ▸ List.mem_cons_self _ _) (minus_not_mem_toDigits v.natAbs)
  · rw [if_neg hv, if_neg hw] at h
    have := toDigits_inj 10 (by decide) (by decide) _ _ h
    omega

/-- The `%x` conversion writes different `int32_t` values differently. -/
theorem formatHex_inj (v w : Int) (hv : isInt32 v) (hw : isInt32 w)
    (h : formatHex v = formatHex w) : v = w := by
  have hu := toDigits_inj 16 (by decide) (by decide) _ _ h
  unfold isInt32 INT32_MIN INT32_MAX at hv hw
  unfold toUnsigned at hu
  omega

/-- Two texts that agree, each a run without the character `s` followed by `s`,
have the same run and the same remainder. -/
theorem run_split (s : Char) : ∀ (xs ys r1 r2 : List Char), s ∉ xs → s ∉ ys →
    xs ++ s :: r1 = ys ++ s :: r2 → xs = ys ∧ r1 = r2 := by
  intro xs
  induction xs with
  | nil =>
    intro ys r1 r2 _ hys h
    cases ys with
    | nil => exact ⟨rfl, (List.cons.inj h).2⟩
    | cons y ys =>
      have hy : s = y := (List.cons.inj h).1
      exact absurd (hy ▸ List.mem_cons_self s ys) hys
  | cons x xs ih =>
    intro ys r1 r2 hxs hys h
    cases ys with
    | nil =>
      have hx : x = s := (List.cons.inj h).1
      exact absurd (hx ▸ List.mem_cons_self x xs) hxs
    | cons y ys =>
      obtain ⟨hhead, htail⟩ := List.cons.inj h
      obtain ⟨hrun, hrest⟩ := ih ys r1 r2 (fun hm => hxs (List.mem_cons_of_mem x hm))
        (fun hm => hys (List.mem_cons_of_mem y hm)) htail
      exact ⟨by rw [hhead, hrun], hrest⟩

/-- The `%d` conversion writes neither the letter `x` nor a blank. -/
theorem formatDecimal_separators (v : Int) :
    'x' ∉ formatDecimal v ∧ ' ' ∉ formatDecimal v := by
  constructor
  · intro hm
    rcases formatDecimal_mem v _ hm with h | h
    · exact absurd h (by decide)
    · exact absurd h (by decide)
  · intro hm
    rcases formatDecimal_mem v _ hm with h | h
    · exact absurd h (by decide)
    · exact absurd h (by decide)

/-- The `%x` conversion writes no blank. -/
theorem formatHex_separator (v : Int) : ' ' ∉ formatHex v := by
  intro hm
  exact absurd (formatHex_mem v _ hm) (by decide)

/-- The debug string as a chain: each conversion followed by the character that
ends it and the rest of the text. -/
theorem ToDebugString_chain (d : DisplayInfo) :
    d.ToDebugString.data
      = "logical_size:".data ++ (formatDecimal d.logical_size.width ++ 'x' ::
        (formatDecimal d.logical_size.height ++ ' ' :: ("display_rotation:".data ++
        (formatDecimal d.rotation ++ ' ' :: ("dpi:".data ++
        (formatDecimal d.logical_density_dpi ++ ' ' :: ("layer_stack:".data ++
        (formatDecimal d.layer_stack ++ ' ' :: ("flags:0x".data ++
        (formatHex d.flags ++ ' ' :: ("state:".data ++
        formatDecimal d.state))))))))))) := by
  rw [ToDebugString_data]
  simp

/-- C13: the debug string determines the instance: two instances with
`int32_t` members and the same debug string have the same width, height,
density, rotation, layer stack, flags and state. -/
theorem C13_ToDebugString_injective (a b : DisplayInfo) (ha : a.isWellTyped)
    (hb : b.isWellTyped) (h : a.ToDebugString = b.ToDebugString) :
    a.logical_size.width = b.logical_size.width
    ∧ a.logical_size.height = b.logical_size.height
    ∧ a.logical_density_dpi = b.logical_density_dpi
    ∧ a.rotation = b.rotation
    ∧ a.layer_stack = b.layer_stack
    ∧ a.flags = b.flags
    ∧ a.state = b.state := by
  have e0 : a.ToDebugString.data = b.ToDebugString.data := congrArg String.data h
  rw [ToDebugString_chain a, ToDebugString_chain b] at e0
  obtain ⟨hW, e1⟩ := run_split 'x' _ _ _ _ (formatDecimal_separators _).1
    (formatDecimal_separators _).1 (List.append_cancel_left e0)
  obtain ⟨hH, e2⟩ := run_split ' ' _ _ _ _ (formatDecimal_separators _).2
    (formatDecimal_separators _).2 e1
  obtain ⟨hR, e3⟩ := run_split ' ' _ _ _ _ (formatDecimal_separators _).2
    (formatDecimal_separators _).2 (List.append_cancel_left e2)
  obtain ⟨hD, e4⟩ := run_split ' ' _ _ _ _ (formatDecimal_separators _).2
    (formatDecimal_separators _).2 (List.append_cancel_left e3)
  obtain ⟨hL, e5⟩ := run_split ' ' _ _ _ _ (formatDecimal_separators _).2
    (formatDecimal_separators _).2 (List.append_cancel_left e4)
  obtain ⟨hF, e6⟩ := run_split ' ' _ _ _ _ (formatHex_separator _)
    (formatHex_separator _) (List.append_cancel_left e5)
  have hS := List.append_cancel_left e6
  exact ⟨formatDecimal_inj _ _ hW, formatDecimal_inj _ _ hH, formatDecimal_inj _ _ hD,
    formatDecimal_inj _ _ hR, formatDecimal_inj _ _ hL,
    formatHex_inj _ _ ha.2.2.2.2.2.1 hb.2.2.2.2.2.1 hF, formatDecimal_inj _ _ hS⟩

/-- Witness of C13: the sample reading and a record written member by member
that renders to the same text. -/
theorem C13_ToDebugString_injective_witness :
    sampleDisplay.isWellTyped
    ∧ ({ logical_size := { width := 1080, height := 2340 }, logical_density_dpi := 440,
         rotation := 1, layer_stack := 0, flags := 255, state := 2 } : DisplayInfo).isWellTyped
    ∧ sampleDisplay.ToDebugString
      = ({ logical_size := { width := 1080, height := 2340 }, logical_density_dpi := 440,
           rotation := 1, layer_stack := 0, flags := 255, state := 2 } : DisplayInfo).ToDebugString
    ∧ sampleDisplay.logical_size.width = 1080
    ∧ sampleDisplay.logical_size.height = 2340
    ∧ sampleDisplay.logical_density_dpi = 440
    ∧ sampleDisplay.rotation = 1
    ∧ sampleDisplay.layer_stack = 0
    ∧ sampleDisplay.flags = 255
    ∧ sampleDisplay.state = 2 :=
  ⟨by decide, by decide, rfl,
    C13_ToDebugString_injective sampleDisplay
      { logical_size := { width := 1080, height := 2340 }, logical_density_dpi := 440,
        rotation := 1, layer_stack := 0, flags := 255, state := 2 }
      (by decide) (by decide) rfl⟩

end screensharing
